import Mathlib

/-!
Verification of the krowdly-backend HTTP handlers (Express + Supabase).

The handlers are stateless: each one reads request fields, issues store
queries, and shapes a JSON response.  We embed each handler as a pure Lean
function over an explicit model of the relevant table rows; the store's
filter / order / limit combinators are modelled by list filtering, stable
insertion sort and `List.take`.  Machine-irrelevant columns that no claim
touches (location, coordinates, tags, images, ...) are elided from the row
structures; every field an examined handler reads or writes is present.
-/

namespace Krowdly

/-- One entry of an event's embedded RSVP list: the literal object
`\x7b userId, username \x7d` the handlers append. -/
structure Entry where
  userId : String
  username : String
deriving DecidableEq

/-- The RSVP list update computed by `POST /api/events/:id/rsvp`
(identical in all three variants):
`already = rsvps.find(r => r.userId === userId)`;
if found, `rsvps.filter(r => r.userId !== userId)`,
otherwise `[...rsvps, \x7b userId, username \x7d]`. -/
def toggleRsvp (userId username : String) (rsvps : List Entry) : List Entry :=
  if rsvps.any (fun r => r.userId == userId) then
    rsvps.filter (fun r => r.userId != userId)
  else
    rsvps ++ [⟨userId, username⟩]

/-- "At most one entry per user id" invariant on an RSVP list. -/
def atMostOnePerUser (rsvps : List Entry) : Prop :=
  rsvps.Pairwise (fun a b => a.userId ≠ b.userId)

instance (rsvps : List Entry) : Decidable (atMostOnePerUser rsvps) := by
  unfold atMostOnePerUser
  infer_instance

/-- Stable sort, descending by a natural-number key: the model of both the
store's `.order(col, descending)` and the handler-side
`.sort((a, b) => keyB - keyA)` (JS `Array.prototype.sort` is stable). -/
def sortByKeyDesc {α : Type} (key : α → Nat) (l : List α) : List α :=
  @List.insertionSort α (fun a b => key b ≤ key a) (fun _x _y => Nat.decLe _ _) l

/-- Stable sort, ascending by a natural-number key: the model of the store's
`.order(col, ascending)`. -/
def sortByKeyAsc {α : Type} (key : α → Nat) (l : List α) : List α :=
  @List.insertionSort α (fun a b => key a ≤ key b) (fun _x _y => Nat.decLe _ _) l

/-- ASCII lowercasing of a string, character by character: the model of the
case folding behind the store's case-insensitive `ilike` filter.  (Defined
over the character list so that it evaluates inside the kernel.) -/
def lowerStr (s : String) : String :=
  String.mk (s.data.map Char.toLower)

/-! ### Users: sign-up, sign-in, profile patch (server.js lines 66-153) -/

/-- Stored row of the `users` table.  `bio` and `profile_color` are filled by
store defaults on insert (modelled as `""`); `id` and `created_at` are
store-assigned and passed to `register` explicitly. -/
structure StoredUser where
  id : Nat
  username : String
  email : String
  password_hash : String
  avatar : String
  bio : String
  profile_color : String
  online : Bool
  created_at : Nat
deriving DecidableEq

/-- `hashPassword` (server.js lines 29-32): sha256 hex digest of
`pw + salt`.  The digest primitive is an out-of-scope collaborator; it is
modelled as an injective tagging of `pw + salt`, which is all the handlers
observe (they only ever compare stored hashes for equality). -/
def hashPassword (pw : String) : String :=
  "sha256:" ++ pw ++ "krowdly_salt_2026"

/-- Default avatar URL (server.js line 81); `encodeURIComponent` is an
out-of-scope collaborator and is elided. -/
def defaultAvatar (username : String) : String :=
  "https://api.dicebear.com/7.x/avataaars/svg?seed=" ++ username

/-- The column list of `.select(...)` used by sign-up, sign-in and the user
list (server.js lines 86, 103, 131): note `password_hash` is absent. -/
def userSelectCols : List String :=
  ["id", "username", "email", "avatar", "online", "bio", "profile_color", "created_at"]

/-- Value of a named column of a `users` row, JSON-rendered as a string. -/
def userField (u : StoredUser) : String → String
  | "id" => toString u.id
  | "username" => u.username
  | "email" => u.email
  | "password_hash" => u.password_hash
  | "avatar" => u.avatar
  | "online" => if u.online then "true" else "false"
  | "bio" => u.bio
  | "profile_color" => u.profile_color
  | "created_at" => toString u.created_at
  | _ => ""

/-- The store's column projection: the JSON object returned by
`.select(cols)`, as an association list in column order. -/
def projectCols (cols : List String) (u : StoredUser) : List (String × String) :=
  cols.map fun c => (c, userField u c)

/-- Responses of the user-facing auth handlers. -/
inductive UserResult where
  | badRequest (msg : String)
  | conflict (msg : String)
  | unauthorized (msg : String)
  | okJson (body : List (String × String))
deriving DecidableEq

def UserResult.isConflict : UserResult → Bool
  | .conflict _ => true
  | _ => false

/-- The row inserted by a successful sign-up (server.js line 85):
`\x7b username, email, password_hash: hashPassword(password), avatar: avatarUrl, online: true \x7d`. -/
def registerRow (username email password avatar : String) (newId now : Nat) :
    StoredUser :=
  { id := newId, username := username, email := email,
    password_hash := hashPassword password,
    avatar := if avatar == "" then defaultAvatar username else avatar,
    bio := "", profile_color := "", online := true, created_at := now }

/-- `POST /api/users` (server.js lines 66-91).  Missing request fields are
modelled as `""` (both `undefined` and `""` are falsy in the source's
checks; `!password` is subsumed by the length test since `"".length < 6`).
The email duplicate check uses the store's exact `eq` filter; the username
duplicate check uses the case-insensitive `ilike` filter, modelled as
equality of lowercasings. -/
def register (db : List StoredUser) (username email password avatar : String)
    (newId now : Nat) : UserResult :=
  if username == "" then .badRequest "Username required"
  else if email == "" then .badRequest "Email required"
  else if password.length < 6 then
    .badRequest "Password must be at least 6 characters"
  else if db.any (fun u => u.email == email) then
    .conflict "Email already registered. Please sign in."
  else if db.any (fun u => lowerStr u.username == lowerStr username) then
    .conflict "Username already taken. Try another one."
  else
    .okJson (projectCols userSelectCols (registerRow username email password avatar newId now))

/-- `POST /api/auth/signin` (server.js lines 94-113).  The success response
is the selected row spread with `online: true`: same key set as the select
list, with the `online` value overridden. -/
def signin (db : List StoredUser) (email password : String) : UserResult :=
  if email == "" || password == "" then .badRequest "Email and password required"
  else
    match db.find? (fun u => u.email == email && u.password_hash == hashPassword password) with
    | none => .unauthorized "Invalid email or password"
    | some u => .okJson (projectCols userSelectCols { u with online := true })

/-- The `updates` object accreted by `PATCH /api/users/:id`
(server.js lines 142-147): one optional slot per allowed column. -/
structure ProfileUpdates where
  username : Option String
  avatar : Option String
  bio : Option String
  profile_color : Option String
deriving DecidableEq

/-- Builds `updates` from the request body (modelled as a JSON object, i.e.
an association list).  The handler destructures only these four keys, so
any other key in the body is never read. -/
def mkProfileUpdates (body : List (String × String)) : ProfileUpdates :=
  { username := body.lookup "username", avatar := body.lookup "avatar",
    bio := body.lookup "bio", profile_color := body.lookup "profile_color" }

def ProfileUpdates.isEmpty (u : ProfileUpdates) : Bool :=
  u.username.isNone && u.avatar.isNone && u.bio.isNone && u.profile_color.isNone

/-- The store's `.update(updates)`: sets exactly the collected columns of
the row, leaving every other column untouched. -/
def applyProfileUpdates (upd : ProfileUpdates) (row : StoredUser) : StoredUser :=
  { row with
    username := upd.username.getD row.username,
    avatar := upd.avatar.getD row.avatar,
    bio := upd.bio.getD row.bio,
    profile_color := upd.profile_color.getD row.profile_color }

/-- `PATCH /api/users/:id` (server.js lines 138-153) applied to the matched
row: `none` is the 400 "Nothing to update" response (no store write). -/
def patchUser (row : StoredUser) (body : List (String × String)) :
    Option StoredUser :=
  let upd := mkProfileUpdates body
  if upd.isEmpty then none else some (applyProfileUpdates upd row)

/-! ### Messages (server.js lines 215-224) -/

/-- Stored row of the `messages` table. -/
structure Message where
  id : Nat
  from_user : String
  to_user : String
  message : String
  created_at : Nat
deriving DecidableEq

/-- `GET /api/messages/:userId/:otherId` (server.js lines 215-224): the
store's `.or(and(from.eq.userId, to.eq.otherId), and(from.eq.otherId, to.eq.userId))`
filter followed by `.order(created_at, ascending)`. -/
def messageHistory (db : List Message) (userId otherId : String) : List Message :=
  sortByKeyAsc (fun m => m.created_at)
    (db.filter fun m =>
      (m.from_user == userId && m.to_user == otherId) ||
      (m.from_user == otherId && m.to_user == userId))

/-! ### Events: RSVP handlers, trending (server.js lines 198-212,
src/unnamed/part_001 lines 471-485, 608-644) -/

/-- Stored row of the `events` table (columns no examined handler reads or
writes — location, category, coordinates, tags, image, ... — are elided). -/
structure Event where
  id : String
  name : String
  privacy : String
  created_by : Option String
  created_at : Nat
  rsvps : List Entry
deriving DecidableEq

/-- Stored row of the `notifications` table (`read` flag and timestamps
elided; `payload` models the structured `data` column). -/
structure Notification where
  user_id : String
  type : String
  title : String
  body : String
  payload : List (String × String)
deriving DecidableEq

/-- Responses of the RSVP handlers. -/
inductive RsvpResult where
  | badRequest (msg : String)
  | notFound (msg : String)
  | storeError
  | ok (ev : Event)
deriving DecidableEq

/-- The first-registered `POST /api/events/:id/rsvp` handler of
src/unnamed/part_001 (lines 471-485; identical to server.js lines 198-212).
`fetch` is the result of the event lookup (`none` covers both a fetch error
and a missing row, each of which yields 404); `updateOk` says whether the
row update succeeds.  The pair's second component is the list of
notification rows the handler inserts: always empty — this handler contains
no notification write. -/
def rsvpBasicHandler (fetch : Option Event) (userId username : String)
    (updateOk : Bool) : RsvpResult × List Notification :=
  if userId == "" then (.badRequest "userId required", [])
  else
    match fetch with
    | none => (.notFound "Event not found", [])
    | some ev =>
      let rsvps := toggleRsvp userId username ev.rsvps
      if updateOk then (.ok { ev with rsvps := rsvps }, []) else (.storeError, [])

/-- The notification row built by the enhanced RSVP handler
(src/unnamed/part_001 lines 635-641). -/
def mkRsvpNotification (creator eventId userId username eventName : String) :
    Notification :=
  { user_id := creator, type := "rsvp",
    title := username ++ " is going to \"" ++ eventName ++ "\"! 🎉",
    body := "Someone new joined your event.",
    payload := [("event_id", eventId), ("user_id", userId)] }

/-- The later-registered "Enhanced RSVP with notification" handler
(src/unnamed/part_001 lines 621-644).  The notification insert happens only
when `!already && ev.created_by && ev.created_by !== userId`; its result is
never inspected by the source, so `notifInsertOk = false` (a failed insert)
leaves no row behind but changes nothing else. -/
def rsvpEnhancedHandler (eventId : String) (fetch : Option Event)
    (userId username : String) (updateOk notifInsertOk : Bool) :
    RsvpResult × List Notification :=
  if userId == "" then (.badRequest "userId required", [])
  else
    match fetch with
    | none => (.notFound "Event not found", [])
    | some ev =>
      let already := ev.rsvps.any (fun r => r.userId == userId)
      let rsvps := toggleRsvp userId username ev.rsvps
      if updateOk then
        let notifs :=
          match ev.created_by with
          | some creator =>
            if !already && creator != "" && creator != userId then
              if notifInsertOk then
                [mkRsvpNotification creator eventId userId username ev.name]
              else []
            else []
          | none => []
        (.ok { ev with rsvps := rsvps }, notifs)
      else (.storeError, [])

/-- The trending qualification filter (src/unnamed/part_001 line 612):
`.eq(privacy, public).gte(created_at, since)` where
`since = now - 24h`. -/
def qualifiesTrending (since : Nat) (e : Event) : Bool :=
  e.privacy == "public" && decide (since ≤ e.created_at)

/-- The store query of `GET /api/events/trending`
(src/unnamed/part_001 lines 611-613): filter, newest-first order,
`.limit(10)`. -/
def trendingStoreQuery (db : List Event) (since : Nat) : List Event :=
  (sortByKeyDesc (fun e => e.created_at) (db.filter (qualifiesTrending since))).take 10

/-- `GET /api/events/trending` (src/unnamed/part_001 lines 608-618): the
handler re-sorts the fetched rows by RSVP count, descending
(`(b.rsvps?.length || 0) - (a.rsvps?.length || 0)`). -/
def trendingHandler (db : List Event) (since : Nat) : List Event :=
  sortByKeyDesc (fun e => e.rsvps.length) (trendingStoreQuery db since)

/-! ### Express route dispatch (src/unnamed/part_001, second document) -/

/-- One `app.METHOD(pattern, handler)` registration; `handler` is a tag
naming the handler function. -/
structure Route where
  method : String
  pattern : String
  handler : String
deriving DecidableEq

def segsAux : List Char → List Char → List (List Char)
  | [], cur => [cur.reverse]
  | c :: cs, cur => if c = '/' then cur.reverse :: segsAux cs [] else segsAux cs (c :: cur)

/-- The non-empty `/`-separated segments of a path. -/
def pathSegments (p : String) : List String :=
  ((segsAux p.data []).filter (fun cs => cs ≠ [])).map String.mk

/-- An Express path segment matches when it is a `:param` wildcard or is
equal to the request segment. -/
def segMatches (pat seg : String) : Bool :=
  (match pat.data with
   | c :: _ => c == ':'
   | [] => false) || pat == seg

def routeMatches (rt : Route) (method path : String) : Bool :=
  rt.method == method &&
    (let ps := pathSegments rt.pattern
     let qs := pathSegments path
     ps.length == qs.length && (List.zip ps qs).all fun pq => segMatches pq.1 pq.2)

/-- Express dispatch: the first matching registration (in registration
order) handles the request; every handler here ends the response and never
calls `next()`, so later matches are unreachable. -/
def dispatch (routes : List Route) (method path : String) : Option String :=
  (routes.find? fun rt => routeMatches rt method path).map (fun rt => rt.handler)

/-- The route table of the deployed variant (second document of
src/unnamed/part_001), in registration order.  Note the two `POST
/api/events/:id/rsvp` registrations: `rsvpBasic` at source line 471 and
`rsvpEnhanced` at source line 621. -/
def part001Routes : List Route := [
  ⟨"GET", "/", "health"⟩,
  ⟨"POST", "/api/users", "signup"⟩,
  ⟨"POST", "/api/auth/signin", "signinHandler"⟩,
  ⟨"POST", "/api/auth/signout", "signout"⟩,
  ⟨"GET", "/api/users", "listUsers"⟩,
  ⟨"PATCH", "/api/users/:id", "updateUser"⟩,
  ⟨"GET", "/api/events", "listEvents"⟩,
  ⟨"POST", "/api/events", "createEvent"⟩,
  ⟨"DELETE", "/api/events/:id", "deleteEvent"⟩,
  ⟨"POST", "/api/events/:id/rsvp", "rsvpBasic"⟩,
  ⟨"GET", "/api/messages/:userId/:otherId", "history"⟩,
  ⟨"POST", "/api/messages", "sendMessage"⟩,
  ⟨"GET", "/api/events/:id/comments", "listComments"⟩,
  ⟨"POST", "/api/events/:id/comments", "createComment"⟩,
  ⟨"DELETE", "/api/comments/:id", "deleteComment"⟩,
  ⟨"GET", "/api/users/:id/follows", "getFollows"⟩,
  ⟨"POST", "/api/follows", "toggleFollow"⟩,
  ⟨"GET", "/api/notifications/:userId", "listNotifs"⟩,
  ⟨"PATCH", "/api/notifications/:userId/read", "markNotifsRead"⟩,
  ⟨"GET", "/api/events/trending", "trending"⟩,
  ⟨"POST", "/api/events/:id/rsvp", "rsvpEnhanced"⟩,
  ⟨"POST", "/api/notifications", "createNotif"⟩]

/-! ### Concrete rows used by the witnesses and counterexamples -/

/-- A stored user whose email has an upper-case letter. -/
def upperEmailUser : StoredUser :=
  { id := 1, username := "old", email := "A@x.com",
    password_hash := hashPassword "hunter22", avatar := "", bio := "",
    profile_color := "", online := false, created_at := 0 }

/-- A stored user named `Bob` (upper-case B). -/
def bobUser : StoredUser :=
  { id := 1, username := "Bob", email := "b@y.com",
    password_hash := hashPassword "hunter22", avatar := "", bio := "",
    profile_color := "", online := false, created_at := 0 }

/-- A stored user for the profile-patch witness. -/
def carolUser : StoredUser :=
  { id := 9, username := "carol", email := "c@x.com",
    password_hash := hashPassword "pw12345", avatar := "", bio := "",
    profile_color := "", online := false, created_at := 3 }

/-- A patch body that also smuggles `email` and `online` keys. -/
def carolPatchBody : List (String × String) :=
  [("bio", "hello"), ("email", "evil@x.com"), ("online", "true")]

/-- A public event created by user `u1` with an empty RSVP list. -/
def picnicEvent : Event :=
  { id := "7", name := "Picnic", privacy := "public", created_by := some "u1",
    created_at := 0, rsvps := [] }

/-- A public no-creator event with creation time `n` and RSVP list `rs`. -/
def trendEvent (n : Nat) (rs : List Entry) : Event :=
  { id := toString n, name := "", privacy := "public", created_by := none,
    created_at := n, rsvps := rs }

/-- Eleven qualifying events; the oldest one has the most RSVPs. -/
def demoTrendDb : List Event :=
  [trendEvent 1 [⟨"a", ""⟩, ⟨"b", ""⟩], trendEvent 2 [], trendEvent 3 [],
   trendEvent 4 [], trendEvent 5 [], trendEvent 6 [], trendEvent 7 [],
   trendEvent 8 [], trendEvent 9 [], trendEvent 10 [], trendEvent 11 []]

/-! ### Helper lemmas -/

theorem sortByKeyDesc_perm {α : Type} (key : α → Nat) (l : List α) :
    List.Perm (sortByKeyDesc key l) l :=
  List.perm_insertionSort _ l

theorem sortByKeyDesc_pairwise {α : Type} (key : α → Nat) (l : List α) :
    (sortByKeyDesc key l).Pairwise (fun a b => key b ≤ key a) := by
  haveI : IsTotal α (fun a b => key b ≤ key a) := ⟨fun a b => Nat.le_total _ _⟩
  haveI : IsTrans α (fun a b => key b ≤ key a) :=
    ⟨fun _ _ _ hab hbc => Nat.le_trans hbc hab⟩
  exact List.sorted_insertionSort _ l

theorem sortByKeyAsc_perm {α : Type} (key : α → Nat) (l : List α) :
    List.Perm (sortByKeyAsc key l) l :=
  List.perm_insertionSort _ l

theorem sortByKeyAsc_pairwise {α : Type} (key : α → Nat) (l : List α) :
    (sortByKeyAsc key l).Pairwise (fun a b => key a ≤ key b) := by
  haveI : IsTotal α (fun a b => key a ≤ key b) := ⟨fun a b => Nat.le_total _ _⟩
  haveI : IsTrans α (fun a b => key a ≤ key b) :=
    ⟨fun _ _ _ hab hbc => Nat.le_trans hab hbc⟩
  exact List.sorted_insertionSort _ l

theorem toggleRsvp_of_present (userId username : String) (l : List Entry)
    (h : l.any (fun r => r.userId == userId) = true) :
    toggleRsvp userId username l = l.filter (fun r => r.userId != userId) := by
  simp [toggleRsvp, h]

theorem toggleRsvp_of_absent (userId username : String) (l : List Entry)
    (h : l.any (fun r => r.userId == userId) = false) :
    toggleRsvp userId username l = l ++ [⟨userId, username⟩] := by
  simp [toggleRsvp, h]

theorem any_filter_userId_ne (userId : String) (l : List Entry) :
    (l.filter (fun r => r.userId != userId)).any (fun r => r.userId == userId) = false := by
  simp [List.any_eq_true, List.mem_filter]

theorem projectCols_keys (cols : List String) (u : StoredUser) :
    (projectCols cols u).map Prod.fst = cols := by
  simp [projectCols, List.map_map, Function.comp_def]

/-! ### Claim theorems -/

/-- C1 (counterexample): the double toggle does NOT always restore the RSVP
list as a set of entries.  If the stored entry for `u1` carries username
`Alice` but the toggling request carries username `Bob`, toggling twice
leaves the entry `(u1, Bob)`, which was not in the original list. -/
theorem rsvp_double_toggle_entry_counterexample :
    (⟨"u1", "Bob"⟩ : Entry) ∈
      toggleRsvp "u1" "Bob" (toggleRsvp "u1" "Bob" [⟨"u1", "Alice"⟩]) ∧
    (⟨"u1", "Bob"⟩ : Entry) ∉ ([⟨"u1", "Alice"⟩] : List Entry) := by
  decide

/-- C1 (amended): toggling twice with the same user id and username restores
the RSVP list's membership as a set of entries, provided every original
entry bearing that user id also carries that username (in particular
whenever the list is entry-duplicate-free and up to date for that user). -/
theorem rsvp_double_toggle_membership (userId username : String) (l : List Entry)
    (h : ∀ e ∈ l, e.userId = userId → e.username = username) (e : Entry) :
    e ∈ toggleRsvp userId username (toggleRsvp userId username l) ↔ e ∈ l := by
  by_cases hp : l.any (fun r => r.userId == userId) = true
  · rw [toggleRsvp_of_present _ _ _ hp,
        toggleRsvp_of_absent _ _ _ (any_filter_userId_ne userId l)]
    have hex : ∃ x ∈ l, x.userId = userId := by
      simpa [List.any_eq_true] using hp
    obtain ⟨e0, he0l, he0uid⟩ := hex
    have he0 : e0 = ⟨userId, username⟩ := by
      have := h e0 he0l he0uid
      cases e0
      simp_all
    constructor
    · intro hm
      rcases List.mem_append.1 hm with hf | hs
      · exact (List.mem_filter.1 hf).1
      · have he : e = ⟨userId, username⟩ := by simpa using hs
        rw [he, ← he0]
        exact he0l
    · intro hm
      by_cases hu : e.userId = userId
      · have he : e = ⟨userId, username⟩ := by
          have := h e hm hu
          cases e
          simp_all
        exact List.mem_append.2 (Or.inr (by simp [he]))
      · exact List.mem_append.2
          (Or.inl (List.mem_filter.2 ⟨hm, by simp [hu]⟩))
  · have hp' : l.any (fun r => r.userId == userId) = false := by
      revert hp
      cases l.any (fun r => r.userId == userId) <;> simp
    rw [toggleRsvp_of_absent _ _ _ hp']
    have hx : ((l ++ [(⟨userId, username⟩ : Entry)]).any
        (fun r => r.userId == userId)) = true := by
      simp
    rw [toggleRsvp_of_present _ _ _ hx, List.filter_append]
    have h1 : l.filter (fun r => r.userId != userId) = l := by
      rw [List.filter_eq_self]
      intro a ha
      have hne : ¬(a.userId = userId) := by
        intro hh
        have : l.any (fun r => r.userId == userId) = true := by
          simp [List.any_eq_true]
          exact ⟨a, ha, hh⟩
        simp [this] at hp'
      simp [hne]
    have h2 : (([⟨userId, username⟩] : List Entry).filter
        (fun r => r.userId != userId)) = [] := by
      simp
    rw [h1, h2, List.append_nil]

/-- C1 (witness): concrete instance of the amended double-toggle theorem. -/
theorem rsvp_double_toggle_membership_witness :
    (⟨"u2", "Ann"⟩ : Entry) ∈
        toggleRsvp "u1" "Bob"
          (toggleRsvp "u1" "Bob" [⟨"u1", "Bob"⟩, ⟨"u2", "Ann"⟩]) ↔
      (⟨"u2", "Ann"⟩ : Entry) ∈ ([⟨"u1", "Bob"⟩, ⟨"u2", "Ann"⟩] : List Entry) :=
  rsvp_double_toggle_membership "u1" "Bob" _ (by decide) _

/-- C2: a single RSVP toggle preserves the "at most one entry per user id"
invariant: it removes every entry of the requesting user id, or appends
exactly one entry for a user id not yet present. -/
theorem rsvp_toggle_preserves_atMostOnePerUser (userId username : String)
    (l : List Entry) (h : atMostOnePerUser l) :
    atMostOnePerUser (toggleRsvp userId username l) := by
  unfold toggleRsvp
  by_cases hp : l.any (fun r => r.userId == userId) = true
  · rw [if_pos hp]
    exact List.Pairwise.sublist (List.filter_sublist l) h
  · rw [if_neg hp]
    unfold atMostOnePerUser at h ⊢
    rw [List.pairwise_append]
    refine ⟨h, List.pairwise_singleton _ _, ?_⟩
    intro a ha b hb
    have hb' : b = ⟨userId, username⟩ := by simpa using hb
    have hne : ¬(a.userId = userId) := by
      intro hh
      exact hp (by
        simp [List.any_eq_true]
        exact ⟨a, ha, hh⟩)
    simp [hb', hne]

/-- C2 (witness): concrete instance of invariant preservation. -/
theorem rsvp_toggle_preserves_atMostOnePerUser_witness :
    atMostOnePerUser (toggleRsvp "u1" "Bob" [⟨"u2", "Ann"⟩]) :=
  rsvp_toggle_preserves_atMostOnePerUser "u1" "Bob" _ (by decide)

/-- C3 (counterexample): a duplicate email under case-insensitive comparison
does NOT always yield Conflict.  `upperEmailUser` holds `A@x.com`; a valid
registration with `a@x.com` passes the store's exact `eq` email check (only
the username check uses `ilike`) and succeeds. -/
theorem register_caseInsensitive_email_counterexample :
    ([upperEmailUser].any (fun u => lowerStr u.email == lowerStr "a@x.com")) = true ∧
    (register [upperEmailUser] "newbie" "a@x.com" "secret1" "" 2 5).isConflict = false := by
  decide

/-- C3 (amended): a registration request that passes field validation
(username and email present, password at least 6 characters) yields
Conflict whenever the email exactly equals a stored email, or the username
case-insensitively equals a stored username. -/
theorem register_duplicate_conflict (db : List StoredUser)
    (username email password avatar : String) (newId now : Nat)
    (hu : username ≠ "") (he : email ≠ "") (hp : 6 ≤ password.length)
    (hdup : (∃ u ∈ db, u.email = email) ∨
      (∃ u ∈ db, lowerStr u.username = lowerStr username)) :
    (register db username email password avatar newId now).isConflict = true := by
  unfold register
  rw [if_neg (by simp [hu]), if_neg (by simp [he]),
      if_neg (by simp [Nat.not_lt.mpr hp])]
  by_cases hem : db.any (fun u => u.email == email) = true
  · rw [if_pos hem]
    rfl
  · have hun : db.any (fun u => lowerStr u.username == lowerStr username) = true := by
      rcases hdup with ⟨u, hu1, hu2⟩ | ⟨u, hu1, hu2⟩
      · exact absurd (by
          simp [List.any_eq_true]
          exact ⟨u, hu1, hu2⟩) hem
      · simp [List.any_eq_true]
        exact ⟨u, hu1, hu2⟩
    rw [if_neg hem, if_pos hun]
    rfl

/-- C3 (witness): registering the lower-cased username `bob` against a table
holding `Bob` yields Conflict. -/
theorem register_duplicate_conflict_witness :
    (register [bobUser] "bob" "new@z.com" "secret1" "" 2 5).isConflict = true :=
  register_duplicate_conflict [bobUser] "bob" "new@z.com" "secret1" "" 2 5
    (by decide) (by decide) (by decide) (Or.inr ⟨bobUser, by decide, by decide⟩)

/-- C4 (counterexample): trending does NOT return every qualifying event.
With eleven public in-window events, the store truncates to the ten newest
before ranking, so the oldest event is dropped even though it qualifies
(and here even has the most RSVPs). -/
theorem trending_not_all_qualifying_counterexample :
    qualifiesTrending 0 (trendEvent 1 [⟨"a", ""⟩, ⟨"b", ""⟩]) = true ∧
    trendEvent 1 [⟨"a", ""⟩, ⟨"b", ""⟩] ∈ demoTrendDb ∧
    trendEvent 1 [⟨"a", ""⟩, ⟨"b", ""⟩] ∉ trendingHandler demoTrendDb 0 := by
  decide

/-- C4 (amended): trending returns the 10 newest (by creation time) of the
public events created within the window, as a list ranked in descending
order of RSVP-list length by the handler after the fetch; every returned
event is public and within the window. -/
theorem trending_ranked_take10 (db : List Event) (since : Nat) :
    List.Perm (trendingHandler db since)
      ((sortByKeyDesc (fun e => e.created_at)
        (db.filter (qualifiesTrending since))).take 10) ∧
    (trendingHandler db since).Pairwise
      (fun a b => b.rsvps.length ≤ a.rsvps.length) ∧
    ∀ e ∈ trendingHandler db since, qualifiesTrending since e = true := by
  refine ⟨sortByKeyDesc_perm _ _, sortByKeyDesc_pairwise _ _, ?_⟩
  intro e he
  simp only [trendingHandler] at he
  have h1 : e ∈ trendingStoreQuery db since :=
    ((sortByKeyDesc_perm _ _).mem_iff).1 he
  simp only [trendingStoreQuery] at h1
  have h2 : e ∈ sortByKeyDesc (fun e => e.created_at)
      (db.filter (qualifiesTrending since)) :=
    List.mem_of_mem_take h1
  have h3 : e ∈ db.filter (qualifiesTrending since) :=
    ((sortByKeyDesc_perm _ _).mem_iff).1 h2
  exact (List.mem_filter.1 h3).2

/-- C10: trending returns at most 10 events, namely (a permutation of) the
10 newest qualifying events taken before the handler's RSVP-count
ranking. -/
theorem trending_limit_ten (db : List Event) (since : Nat) :
    (trendingHandler db since).length ≤ 10 ∧
    List.Perm (trendingHandler db since)
      ((sortByKeyDesc (fun e => e.created_at)
        (db.filter (qualifiesTrending since))).take 10) := by
  have hperm : List.Perm (trendingHandler db since) (trendingStoreQuery db since) :=
    sortByKeyDesc_perm _ _
  constructor
  · rw [hperm.length_eq]
    simp only [trendingStoreQuery]
    exact List.length_take_le _ _
  · exact hperm

/-- C5 (code bug): in the deployed variant, `POST /api/events/:id/rsvp` is
registered twice; Express dispatches to the FIRST registration, the
notification-free handler, so the later "Enhanced RSVP with notification"
handler — the one implementing the claimed behavior, as its own comment
`Notify host when someone RSVPs (not when they un-RSVP)` documents — is
unreachable.  Concretely: the dispatched handler inserts no notification
for an RSVP add by `u2` on an event created by `u1`, while the shadowed
enhanced handler would insert exactly the claimed creator notification. -/
theorem rsvp_notification_route_shadowed :
    dispatch part001Routes "POST" "/api/events/7/rsvp" = some "rsvpBasic" ∧
    (rsvpBasicHandler (some picnicEvent) "u2" "Bob" true).2 = [] ∧
    (rsvpEnhancedHandler "7" (some picnicEvent) "u2" "Bob" true true).2 =
      [mkRsvpNotification "u1" "7" "u2" "Bob" "Picnic"] := by
  decide

/-- C6: when the event-row update succeeds but the notification insert
fails, the enhanced RSVP handler still responds with the updated event
(the same success response as when the insert succeeds), and the
notification is silently dropped (no row stored). -/
theorem rsvp_notification_failure_swallowed (eventId : String) (ev : Event)
    (userId username : String) (h : userId ≠ "") :
    (rsvpEnhancedHandler eventId (some ev) userId username true false).1 =
      RsvpResult.ok { ev with rsvps := toggleRsvp userId username ev.rsvps } ∧
    (rsvpEnhancedHandler eventId (some ev) userId username true false).1 =
      (rsvpEnhancedHandler eventId (some ev) userId username true true).1 ∧
    (rsvpEnhancedHandler eventId (some ev) userId username true false).2 = [] := by
  have h' : (userId == "") = false := by simp [h]
  refine ⟨?_, ?_, ?_⟩ <;> cases hcb : ev.created_by <;>
    simp [rsvpEnhancedHandler, h', hcb]

/-- C6 (witness): concrete instance on `picnicEvent`. -/
theorem rsvp_notification_failure_swallowed_witness :
    (rsvpEnhancedHandler "7" (some picnicEvent) "u2" "Bob" true false).1 =
      RsvpResult.ok { picnicEvent with rsvps := toggleRsvp "u2" "Bob" picnicEvent.rsvps } ∧
    (rsvpEnhancedHandler "7" (some picnicEvent) "u2" "Bob" true false).1 =
      (rsvpEnhancedHandler "7" (some picnicEvent) "u2" "Bob" true true).1 ∧
    (rsvpEnhancedHandler "7" (some picnicEvent) "u2" "Bob" true false).2 = [] :=
  rsvp_notification_failure_swallowed "7" picnicEvent "u2" "Bob" (by decide)

/-- C7: a successful registration response, and every successful sign-in
response for the same email and password (against any table state), carries
exactly the selected columns — never the `password_hash` field. -/
theorem register_signin_no_password_hash (db : List StoredUser)
    (username email password avatar : String) (newId now : Nat)
    (resp : List (String × String))
    (hreg : register db username email password avatar newId now = .okJson resp)
    (db2 : List StoredUser) (resp2 : List (String × String))
    (hsig : signin db2 email password = .okJson resp2) :
    "password_hash" ∉ resp.map Prod.fst ∧ "password_hash" ∉ resp2.map Prod.fst := by
  constructor
  · have hresp : resp =
        projectCols userSelectCols (registerRow username email password avatar newId now) := by
      unfold register at hreg
      split_ifs at hreg
      all_goals first
        | exact (UserResult.noConfusion hreg)
        | (injection hreg with hh
           exact hh.symm)
    rw [hresp, projectCols_keys]
    decide
  · unfold signin at hsig
    split_ifs at hsig with hcred
    cases hfind : db2.find?
        (fun u => u.email == email && u.password_hash == hashPassword password) with
    | none =>
      rw [hfind] at hsig
      dsimp only [] at hsig
      exact (UserResult.noConfusion hsig)
    | some u =>
      rw [hfind] at hsig
      dsimp only [] at hsig
      injection hsig with hh
      rw [← hh, projectCols_keys]
      decide

/-- C7 (witness): concrete registration of `alice` and concrete sign-in
against the resulting table. -/
theorem register_signin_no_password_hash_witness :
    "password_hash" ∉
      (projectCols userSelectCols (registerRow "alice" "a@x.com" "secret1" "" 1 0)).map Prod.fst ∧
    "password_hash" ∉
      (projectCols userSelectCols
        { registerRow "alice" "a@x.com" "secret1" "" 1 0 with online := true }).map Prod.fst :=
  register_signin_no_password_hash [] "alice" "a@x.com" "secret1" "" 1 0
    (projectCols userSelectCols (registerRow "alice" "a@x.com" "secret1" "" 1 0))
    (by decide)
    [registerRow "alice" "a@x.com" "secret1" "" 1 0]
    (projectCols userSelectCols
      { registerRow "alice" "a@x.com" "secret1" "" 1 0 with online := true })
    (by decide)

/-- C8: message history is symmetric in the two user ids (the two calls
return identical lists), contains exactly the stored messages whose
(from, to) pair matches either ordering, and is ordered oldest-first by
creation time. -/
theorem message_history_symmetric (db : List Message) (a b : String) :
    messageHistory db a b = messageHistory db b a ∧
    (∀ m, m ∈ messageHistory db a b ↔
      (m ∈ db ∧ ((m.from_user = a ∧ m.to_user = b) ∨
                 (m.from_user = b ∧ m.to_user = a)))) ∧
    (messageHistory db a b).Pairwise
      (fun m1 m2 => m1.created_at ≤ m2.created_at) := by
  refine ⟨?_, ?_, sortByKeyAsc_pairwise _ _⟩
  · unfold messageHistory
    congr 1
    apply List.filter_congr
    intro m _
    exact Bool.or_comm _ _
  · intro m
    unfold messageHistory
    rw [(sortByKeyAsc_perm _ _).mem_iff, List.mem_filter]
    simp

/-- C9: the profile-patch operation can only modify username, avatar, bio
and profile color; whatever keys the request body contains, the stored
user's email, password hash, online flag, id and creation time are
unchanged. -/
theorem patch_user_frame (row : StoredUser) (body : List (String × String))
    (row2 : StoredUser) (h : patchUser row body = some row2) :
    row2.email = row.email ∧ row2.password_hash = row.password_hash ∧
    row2.online = row.online ∧ row2.id = row.id ∧
    row2.created_at = row.created_at := by
  unfold patchUser at h
  dsimp only [] at h
  split_ifs at h with hemp
  injection h with hh
  rw [← hh]
  exact ⟨rfl, rfl, rfl, rfl, rfl⟩

/-- C9 (witness): patching `carolUser` with a body that also smuggles
`email` and `online` keys leaves email, hash and online flag unchanged. -/
theorem patch_user_frame_witness :
    (applyProfileUpdates (mkProfileUpdates carolPatchBody) carolUser).email = carolUser.email ∧
    (applyProfileUpdates (mkProfileUpdates carolPatchBody) carolUser).password_hash =
      carolUser.password_hash ∧
    (applyProfileUpdates (mkProfileUpdates carolPatchBody) carolUser).online = carolUser.online ∧
    (applyProfileUpdates (mkProfileUpdates carolPatchBody) carolUser).id = carolUser.id ∧
    (applyProfileUpdates (mkProfileUpdates carolPatchBody) carolUser).created_at =
      carolUser.created_at :=
  patch_user_frame carolUser carolPatchBody _ (by decide)

end Krowdly
